import Mathlib

/-!
# Verification of the DroneMobile client library

Shallow embedding of the DroneMobile TypeScript client (`DroneMobile` class,
`getSessionToken` / `apiRequest` helpers) and proofs of the specification
claims about it.

Modelling conventions:
* HTTP transports are environments: total functions from the request
  parameters to the response the server would give.  A call issued is
  recorded in an explicit trace returned alongside the result.
* Thrown exceptions become `Except String` values carrying the message.
* The concurrent fan-out of `vehicles({all:true})` (`Promise.all`) is modelled
  with an explicit *completion order*: a list of task indices giving the order
  in which the in-flight promises settle.  `Promise.all` fills a slot array at
  each task's request index as it completes and resolves, once all slots are
  filled, with the slots in request-index order (rejecting with the first
  rejection in completion order) — exactly the ECMAScript semantics.
* Mutable instance state (`sessionInfo`, `config`) is threaded explicitly:
  every operation takes a `ClientState` and returns the state it leaves
  behind.
-/

/-- The `interface DroneMobileConfig { username; password }` -/
structure DroneMobileConfig where
  username : String
  password : String
deriving DecidableEq, Repr

/-- The `interface SessionInfo { accessToken: string | null }` -/
structure SessionInfo where
  accessToken : Option String
deriving DecidableEq, Repr

/-- The mutable instance state of a `DroneMobile` object: its stored
configuration plus the session info. -/
structure ClientState where
  config : DroneMobileConfig
  sessionInfo : SessionInfo
deriving DecidableEq, Repr

/-- A vehicle record (`ResultsEntity`).  The only contractually significant
field is `device_key`; the rest of the vendor payload is kept opaque. -/
structure ResultsEntity where
  device_key : String
  payload : String
deriving DecidableEq, Repr

/-- The `VehicleResponse`: JSON body of one vehicle-list page — the total `count`
plus this page's `results`. -/
structure VehicleResponse where
  count : Nat
  results : List ResultsEntity
deriving DecidableEq, Repr

/-- An HTTP response of the vehicle-list endpoint as seen by `got` with
`throwHttpErrors: false`: status code plus parsed JSON body. -/
structure HttpListResponse where
  statusCode : Nat
  body : VehicleResponse
deriving DecidableEq, Repr

/-- The vehicle-list endpoint as an environment: `(limit, offset) ↦ response`. -/
def ListEnv : Type := Nat → Nat → HttpListResponse

/-- The response shape of `apiRequest` (`ApiResponse<T>`): the status code and
the opaque response body. -/
structure ApiResponse where
  statusCode : Nat
  result : String
deriving DecidableEq, Repr

/-- The command endpoint as an environment:
`(deviceKey, command) ↦ response`. -/
def CmdEnv : Type := String → String → ApiResponse

/-- The Cognito `InitiateAuth` response: `AuthenticationResult?.IdToken`,
which may be absent. -/
structure CognitoResult where
  idToken : Option String
deriving DecidableEq, Repr

/-- The identity provider as an environment: `(username, password)` either
yields a `CognitoResult` or the transport call throws with a message. -/
def AuthEnv : Type := String → String → Except String CognitoResult

/-- The `getSessionToken` (utils): initiates the Cognito password auth flow,
extracts `IdToken`; a missing token throws inside the `try`, so the `catch`
wraps that message a second time with `Authentication failed: `. -/
def getSessionToken (env : AuthEnv) (username password : String) :
    Except String String :=
  match env username password with
  | .error e => .error ("Authentication failed: " ++ e)
  | .ok r =>
    match r.idToken with
    | some idToken => .ok idToken
    | none =>
      .error ("Authentication failed: " ++ "Authentication failed: IdToken is missing")

/-- The `DroneMobile.login()`: exchanges the stored credentials for a token and
stores it in `sessionInfo.accessToken`.  If the exchange throws, the
assignment is never reached and the state is unchanged. -/
def login (st : ClientState) (env : AuthEnv) : Except String Unit × ClientState :=
  match getSessionToken env st.config.username st.config.password with
  | .error e => (.error e, st)
  | .ok accessToken =>
    (.ok (), { st with sessionInfo := { accessToken := some accessToken } })

/-- The resolved `VehicleOptions` fields.  TypeScript destructures
`const { all = true, limit = 100, offset = 0 } = opts ?? {}`; each field of
the options object may be absent. -/
structure VehicleOptions where
  all : Option Bool := none
  limit : Option Nat := none
  offset : Option Nat := none
deriving DecidableEq, Repr

/-- Resolved `all` (default `true`). -/
def resolveAll (opts : Option VehicleOptions) : Bool :=
  ((opts.getD {}).all).getD true

/-- Resolved `limit` (default `100`). -/
def resolveLimit (opts : Option VehicleOptions) : Nat :=
  ((opts.getD {}).limit).getD 100

/-- Resolved `offset` (default `0`). -/
def resolveOffset (opts : Option VehicleOptions) : Nat :=
  ((opts.getD {}).offset).getD 0

/-- The `Math.ceil(count / limit)` on the naturals involved (`limit > 0`). -/
def ceilDiv (a b : Nat) : Nat := (a + b - 1) / b

/-- The inner `sendReq` closure of `vehicles`: issues one GET for
`limit` items at `offset`; a non-200 status throws
`Failed to get vehicles: <status>`, otherwise the body is returned. -/
def sendReq (env : ListEnv) (limit offset : Nat) : Except String VehicleResponse :=
  let response := env limit offset
  if response.statusCode ≠ 200 then
    .error ("Failed to get vehicles: " ++ toString response.statusCode)
  else
    .ok response.body

/-- One step of `Promise.all`'s settling loop: process the tasks in
completion order, rejecting at the first rejection, otherwise writing each
task's value into the slot at its request index. -/
def promiseAllAux (task : Nat → Except String α) :
    List Nat → List (Option α) → Except String (List (Option α))
  | [], slots => .ok slots
  | i :: rest, slots =>
    match task i with
    | .error e => .error e
    | .ok a => promiseAllAux task rest (slots.set i (some a))

/-- The `Promise.all` over `n` tasks, settling in the given completion order:
`none` when the order never settles all tasks (not a valid schedule), else
the first rejection in completion order, else the values in request-index
order. -/
def promiseAll (n : Nat) (task : Nat → Except String α) (order : List Nat) :
    Option (Except String (List α)) :=
  match promiseAllAux task order (List.replicate n none) with
  | .error e => some (.error e)
  | .ok slots =>
    if slots.all Option.isSome then some (.ok (slots.filterMap id)) else none

/-- The `order` is a possible completion order for `n` concurrent tasks: a
permutation of the request indices `0, …, n-1`. -/
def IsCompletionOrder (n : Nat) (order : List Nat) : Prop :=
  order.Perm (List.range n)

instance (n : Nat) (order : List Nat) : Decidable (IsCompletionOrder n order) :=
  List.decidablePerm order (List.range n)

/-- The number of additional page requests of `vehicles({all:true})`:
`Math.ceil(response.count / limit) - 1`. -/
def numOfRequests (count limit : Nat) : Nat := ceilDiv count limit - 1

/-- The `i`-th additional page request: `sendReq(limit, (i + 1) * limit)`. -/
def pageTask (env : ListEnv) (limit : Nat) (i : Nat) : Except String VehicleResponse :=
  sendReq env limit ((i + 1) * limit)

/-- The `DroneMobile.vehicles(opts?)`.  Result `none` only when the completion
order is not a valid schedule (the join never settles).  Also returns the
state left behind and the trace of list requests issued, as
`(limit, offset)` pairs. -/
def vehicles (st : ClientState) (env : ListEnv) (order : List Nat)
    (opts : Option VehicleOptions) :
    Option (Except String (List ResultsEntity)) × ClientState × List (Nat × Nat) :=
  match st.sessionInfo.accessToken with
  | none => (some (.error "Not logged in"), st, [])
  | some _ =>
    let all := resolveAll opts
    let limit := resolveLimit opts
    let offset := resolveOffset opts
    match sendReq env limit offset with
    | .error e => (some (.error e), st, [(limit, offset)])
    | .ok response =>
      if all = true ∧ limit < response.count then
        let n := numOfRequests response.count limit
        let trace := (limit, offset) ::
          (List.range n).map (fun i => (limit, (i + 1) * limit))
        match promiseAll n (pageTask env limit) order with
        | none => (none, st, trace)
        | some (.error e) => (some (.error e), st, trace)
        | some (.ok pages) =>
          (some (.ok (response.results ++ (pages.map (fun r => r.results)).flatten)),
           st, trace)
      else
        (some (.ok response.results), st, [(limit, offset)])

/-- The `DroneMobile.sendCommand(vehicleId, command)`: requires a token, issues
one POST of `{deviceKey, command}` to the command endpoint, fails with
`Command failed` on any non-200 status, else returns the fixed success
string.  The trace records the `(deviceKey, command)` requests issued. -/
def sendCommand (st : ClientState) (env : CmdEnv) (vehicleId command : String) :
    Except String String × ClientState × List (String × String) :=
  match st.sessionInfo.accessToken with
  | none => (.error "Not logged in", st, [])
  | some _ =>
    let response := env vehicleId command
    if response.statusCode ≠ 200 then
      (.error "Command failed", st, [(vehicleId, command)])
    else
      (.ok (command ++ " command was successful!"), st, [(vehicleId, command)])

/-- The `DroneMobile.start`. -/
def start (st : ClientState) (env : CmdEnv) (vehicleId : String) :
    Except String String × ClientState × List (String × String) :=
  sendCommand st env vehicleId "remote_start"

/-- The `DroneMobile.stop`. -/
def stop (st : ClientState) (env : CmdEnv) (vehicleId : String) :
    Except String String × ClientState × List (String × String) :=
  sendCommand st env vehicleId "remote_stop"

/-- The `DroneMobile.lock`. -/
def lock (st : ClientState) (env : CmdEnv) (vehicleId : String) :
    Except String String × ClientState × List (String × String) :=
  sendCommand st env vehicleId "arm"

/-- The `DroneMobile.unlock`. -/
def unlock (st : ClientState) (env : CmdEnv) (vehicleId : String) :
    Except String String × ClientState × List (String × String) :=
  sendCommand st env vehicleId "disarm"

/-- The `DroneMobile.trunk`. -/
def trunk (st : ClientState) (env : CmdEnv) (vehicleId : String) :
    Except String String × ClientState × List (String × String) :=
  sendCommand st env vehicleId "trunk"

/-- The `DroneMobile.aux1`. -/
def aux1 (st : ClientState) (env : CmdEnv) (vehicleId : String) :
    Except String String × ClientState × List (String × String) :=
  sendCommand st env vehicleId "remote_aux1"

/-- The `DroneMobile.aux2`. -/
def aux2 (st : ClientState) (env : CmdEnv) (vehicleId : String) :
    Except String String × ClientState × List (String × String) :=
  sendCommand st env vehicleId "remote_aux2"

/-- The `DroneMobile.location`: delegates to `sendCommand` with keyword
`location` and returns whatever that returns. -/
def location (st : ClientState) (env : CmdEnv) (vehicleId : String) :
    Except String String × ClientState × List (String × String) :=
  sendCommand st env vehicleId "location"

/-- The options object `{ all: true }` passed by `status`. -/
def allTrueOpts : Option VehicleOptions := some { all := some true }

/-- The `DroneMobile.status(vehicleId)`: fetches `vehicles({ all: true })` and
returns the first record whose `device_key` equals `vehicleId` (or absence).
Outcome `none` only when the underlying join never settles. -/
def status (st : ClientState) (env : ListEnv) (order : List Nat)
    (vehicleId : String) :
    Option (Except String (Option ResultsEntity)) × ClientState × List (Nat × Nat) :=
  match vehicles st env order allTrueOpts with
  | (none, st', tr) => (none, st', tr)
  | (some (.error e), st', tr) => (some (.error e), st', tr)
  | (some (.ok vs), st', tr) =>
    (some (.ok (vs.find? (fun item => item.device_key == vehicleId))), st', tr)

/-! ## Example fixtures used by the witnesses and counterexamples -/

/-- A client that has never logged in. -/
def stNoTok : ClientState := ⟨⟨"user", "pass"⟩, ⟨none⟩⟩

/-- A logged-in client. -/
def stTok : ClientState := ⟨⟨"user", "pass"⟩, ⟨some "token"⟩⟩

/-- A list endpoint with a single vehicle. -/
def listEnvOne : ListEnv := fun _l _o => ⟨200, ⟨1, [⟨"dev1", "p1"⟩]⟩⟩

/-- A command endpoint answering 200 with an opaque body. -/
def cmdEnvOk : CmdEnv := fun _v _c => ⟨200, "vendor-body"⟩

/-- A command endpoint answering 500. -/
def cmdEnvErr : CmdEnv := fun _v _c => ⟨500, "internal error"⟩

/-! ## The claims -/

/-- The merged list produced by appending the additional pages in the given
page sequence after the initial page: `completionMerge env limit offset order`
is the initial page's records followed by the records of additional pages
taken in the sequence `order`. -/
def completionMerge (env : ListEnv) (limit offset : Nat) (order : List Nat) :
    List ResultsEntity :=
  (env limit offset).body.results ++
    (order.map (fun i => (env limit ((i + 1) * limit)).body.results)).flatten

/-- A list endpoint reporting 250 vehicles: the initial page holds 100
records, the page at offset 100 holds 100, the page at offset 200 holds 50. -/
def envC2 : ListEnv := fun _l o =>
  ⟨200, ⟨250, List.replicate (if o = 200 then 50 else 100) ⟨"k", "v"⟩⟩⟩

/-- A list endpoint reporting 250 vehicles where every page holds a single
record named after its offset, so pages are distinguishable. -/
def envC3 : ListEnv := fun _l o => ⟨200, ⟨250, [⟨"dev" ++ toString o, "x"⟩]⟩⟩

/-- A list endpoint where the page at offset 100 answers 500 while the others
answer 200 with a reported count of 250. -/
def envC7 : ListEnv := fun _l o =>
  if o = 100 then ⟨500, ⟨250, []⟩⟩ else ⟨200, ⟨250, [⟨"a", "b"⟩]⟩⟩

/-! ## Semantics of the concurrent join -/

theorem foldl_set_getElem? {α : Type} (f : Nat → α) (order : List Nat) :
    ∀ (slots : List (Option α)) (j : Nat),
    (order.foldl (fun s i => s.set i (some (f i))) slots)[j]? =
      if j ∈ order ∧ j < slots.length then some (some (f j)) else slots[j]? := by
  induction order with
  | nil => intro slots j; simp
  | cons i rest ih =>
    intro slots j
    simp only [List.foldl_cons]
    rw [ih]
    simp only [List.length_set, List.getElem?_set, List.mem_cons]
    by_cases h1 : j ∈ rest <;> by_cases h2 : j < slots.length <;> by_cases h3 : i = j
    · simp [h1, h2, h3]
    · simp [h1, h2, h3]
    · subst h3
      have : slots[i]? = none := List.getElem?_eq_none (by omega)
      simp [h1, h2, this]
    · have : slots[j]? = none := List.getElem?_eq_none (by omega)
      simp [h1, h2, h3, this]
    · subst h3; simp [h1, h2]
    · simp [h1, h2, Ne.symm h3]
      exact fun h => absurd h h3
    · subst h3
      have : slots[i]? = none := List.getElem?_eq_none (by omega)
      simp [h1, h2, this]
    · have : slots[j]? = none := List.getElem?_eq_none (by omega)
      simp [h1, h2, Ne.symm h3, this]
      exact fun h => absurd h h3

theorem promiseAllAux_ok {α : Type} (task : Nat → Except String α) (f : Nat → α)
    (order : List Nat) :
    ∀ (slots : List (Option α)), (∀ i ∈ order, task i = .ok (f i)) →
    promiseAllAux task order slots =
      .ok (order.foldl (fun s i => s.set i (some (f i))) slots) := by
  induction order with
  | nil => intro slots _; rfl
  | cons i rest ih =>
    intro slots h
    have hi : task i = .ok (f i) := h i (List.mem_cons_self i rest)
    simp only [promiseAllAux, hi, List.foldl_cons]
    exact ih _ (fun j hj => h j (List.mem_cons_of_mem i hj))

theorem promiseAll_ok {α : Type} (n : Nat) (task : Nat → Except String α)
    (f : Nat → α) (order : List Nat)
    (horder : IsCompletionOrder n order)
    (h : ∀ i < n, task i = .ok (f i)) :
    promiseAll n task order = some (.ok ((List.range n).map f)) := by
  have hmem : ∀ i, i ∈ order ↔ i < n := by
    intro i
    rw [horder.mem_iff, List.mem_range]
  have haux := promiseAllAux_ok task f order (List.replicate n none)
    (fun i hi => h i ((hmem i).mp hi))
  have hfinal : order.foldl (fun s i => s.set i (some (f i))) (List.replicate n none)
      = (List.range n).map (some ∘ f) := by
    apply List.ext_getElem?
    intro j
    rw [foldl_set_getElem?]
    by_cases hj : j < n
    · simp [hmem, hj, List.getElem?_map, List.getElem?_range hj]
    · have h1 : (List.replicate n (none : Option α))[j]? = none :=
        List.getElem?_eq_none (by simp; omega)
      have h2 : ((List.range n).map (some ∘ f))[j]? = none :=
        List.getElem?_eq_none (by simp; omega)
      simp [hmem, hj, h1, h2]
  unfold promiseAll
  rw [haux, hfinal]
  have hall : ((List.range n).map (some ∘ f)).all Option.isSome = true := by
    simp [List.all_eq_true]
  dsimp only
  rw [if_pos hall]
  congr 1
  congr 1
  rw [List.filterMap_map]
  simp only [Function.id_comp]
  exact congrFun (List.filterMap_eq_map f) (List.range n)

theorem promiseAllAux_error {α : Type} (task : Nat → Except String α)
    (order : List Nat) :
    ∀ (slots : List (Option α)), (∃ i ∈ order, ∃ e, task i = .error e) →
    ∃ e, promiseAllAux task order slots = .error e ∧ ∃ i ∈ order, task i = .error e := by
  induction order with
  | nil => intro slots h; simp at h
  | cons i rest ih =>
    intro slots h
    match htask : task i with
    | .error e =>
      exact ⟨e, by simp [promiseAllAux, htask], i, List.mem_cons_self i rest, htask⟩
    | .ok a =>
      obtain ⟨i', hi', e', he'⟩ := h
      rcases List.mem_cons.mp hi' with h1 | h1
      · subst h1; rw [htask] at he'; exact absurd he' (by simp)
      · obtain ⟨e, heq, i'', hi'', he''⟩ := ih (slots.set i (some a)) ⟨i', h1, e', he'⟩
        exact ⟨e, by simp [promiseAllAux, htask, heq],
          i'', List.mem_cons_of_mem i hi'', he''⟩

theorem promiseAll_error {α : Type} (n : Nat) (task : Nat → Except String α)
    (order : List Nat)
    (horder : IsCompletionOrder n order)
    (h : ∃ i < n, ∃ e, task i = .error e) :
    ∃ e, promiseAll n task order = some (.error e) ∧
      ∃ i < n, task i = .error e := by
  have hmem : ∀ i, i ∈ order ↔ i < n := by
    intro i; rw [horder.mem_iff, List.mem_range]
  obtain ⟨i, hi, e, he⟩ := h
  obtain ⟨e', heq, i', hi', he'⟩ :=
    promiseAllAux_error task order (List.replicate n none) ⟨i, (hmem i).mpr hi, e, he⟩
  exact ⟨e', by rw [promiseAll, heq], i', (hmem i').mp hi', he'⟩

/-- A `sendReq` error is exactly a non-200 status, with the message naming
that status code. -/
theorem sendReq_error_iff (env : ListEnv) (limit offset : Nat) (e : String) :
    sendReq env limit offset = .error e ↔
      (env limit offset).statusCode ≠ 200 ∧
        e = "Failed to get vehicles: " ++ toString (env limit offset).statusCode := by
  unfold sendReq
  dsimp only
  split
  · constructor
    · intro h
      exact ⟨by assumption, by cases h; rfl⟩
    · rintro ⟨-, rfl⟩
      rfl
  · constructor
    · intro h
      cases h
    · rintro ⟨hne, -⟩
      simp_all

/-- The `sendReq` succeeds with the response body exactly on a 200 status. -/
theorem sendReq_ok (env : ListEnv) (limit offset : Nat)
    (h : (env limit offset).statusCode = 200) :
    sendReq env limit offset = .ok (env limit offset).body := by
  unfold sendReq
  dsimp only
  rw [if_neg (by simp [h])]

/-! ## Frame helpers: no operation but `login` touches the client state -/

/-- The `vehicles` leaves the client state untouched. -/
theorem vehicles_state_eq (st : ClientState) (env : ListEnv) (order : List Nat)
    (opts : Option VehicleOptions) : (vehicles st env order opts).2.1 = st := by
  unfold vehicles
  split
  · rfl
  · dsimp only
    split
    · rfl
    · split
      · split <;> rfl
      · rfl

/-- The `sendCommand` leaves the client state untouched. -/
theorem sendCommand_state_eq (st : ClientState) (env : CmdEnv)
    (vehicleId command : String) :
    (sendCommand st env vehicleId command).2.1 = st := by
  unfold sendCommand
  split
  · rfl
  · dsimp only
    split <;> rfl

/-- The `status` leaves the client state untouched. -/
theorem status_state_eq (st : ClientState) (env : ListEnv) (order : List Nat)
    (vehicleId : String) : (status st env order vehicleId).2.1 = st := by
  have hv := vehicles_state_eq st env order allTrueOpts
  unfold status
  rcases h : vehicles st env order allTrueOpts with ⟨res, st2, tr⟩
  rw [h] at hv
  rcases res with _ | res
  · exact hv
  · rcases res with e | vs <;> exact hv

/-- Reduction of `vehicles({all: true})` when every page answers 200 and the
reported count exceeds the limit: the call fans out, and for every valid
completion order the merged list is the initial page followed by the
additional pages in offset order. -/
theorem vehicles_allTrue_ok (st : ClientState) (t : String)
    (h : st.sessionInfo.accessToken = some t)
    (env : ListEnv) (order : List Nat)
    (h200 : ∀ l o, (env l o).statusCode = 200)
    (hcount : 100 < (env 100 0).body.count)
    (horder : IsCompletionOrder (numOfRequests (env 100 0).body.count 100) order) :
    vehicles st env order allTrueOpts =
      (some (.ok ((env 100 0).body.results ++
        ((List.range (numOfRequests (env 100 0).body.count 100)).map
          (fun i => (env 100 ((i + 1) * 100)).body.results)).flatten)),
       st,
       (100, 0) :: (List.range (numOfRequests (env 100 0).body.count 100)).map
         (fun i => (100, (i + 1) * 100))) := by
  unfold vehicles
  rw [h]
  dsimp only
  rw [show resolveAll allTrueOpts = true from rfl,
    show resolveLimit allTrueOpts = 100 from rfl,
    show resolveOffset allTrueOpts = 0 from rfl,
    sendReq_ok env 100 0 (h200 100 0)]
  dsimp only
  rw [if_pos ⟨rfl, hcount⟩]
  have htasks : ∀ i < numOfRequests (env 100 0).body.count 100,
      pageTask env 100 i = .ok ((env 100 ((i + 1) * 100)).body) := by
    intro i _
    exact sendReq_ok env 100 ((i + 1) * 100) (h200 100 ((i + 1) * 100))
  rw [promiseAll_ok (numOfRequests (env 100 0).body.count 100) (pageTask env 100)
    (fun i => (env 100 ((i + 1) * 100)).body) order horder htasks]
  dsimp only
  rw [List.map_map]
  rfl

/-! ## Example fixtures used by the witnesses and counterexamples -/

/-- C1: every operation that requires a session (vehicles, sendCommand, and
hence every public wrapper, location and status) fails immediately with the
`Not logged in` error when the held token is null, and issues no network
request (its trace is empty). -/
theorem C1_null_token_fails_without_request (st : ClientState)
    (h : st.sessionInfo.accessToken = none)
    (envL : ListEnv) (envC : CmdEnv) (order : List Nat)
    (opts : Option VehicleOptions) (vehicleId command : String) :
    vehicles st envL order opts = (some (.error "Not logged in"), st, []) ∧
    sendCommand st envC vehicleId command = (.error "Not logged in", st, []) ∧
    start st envC vehicleId = (.error "Not logged in", st, []) ∧
    stop st envC vehicleId = (.error "Not logged in", st, []) ∧
    lock st envC vehicleId = (.error "Not logged in", st, []) ∧
    unlock st envC vehicleId = (.error "Not logged in", st, []) ∧
    trunk st envC vehicleId = (.error "Not logged in", st, []) ∧
    aux1 st envC vehicleId = (.error "Not logged in", st, []) ∧
    aux2 st envC vehicleId = (.error "Not logged in", st, []) ∧
    location st envC vehicleId = (.error "Not logged in", st, []) ∧
    status st envL order vehicleId = (some (.error "Not logged in"), st, []) := by
  refine ⟨?_, ?_, ?_, ?_, ?_, ?_, ?_, ?_, ?_, ?_, ?_⟩ <;>
    simp [vehicles, sendCommand, start, stop, lock, unlock, trunk, aux1, aux2,
      location, status, h]

/-- C1 witness: the theorem applied to a concrete never-logged-in client. -/
theorem C1_witness :
    vehicles stNoTok listEnvOne [] none = (some (.error "Not logged in"), stNoTok, []) ∧
    sendCommand stNoTok cmdEnvOk "veh" "arm" = (.error "Not logged in", stNoTok, []) ∧
    start stNoTok cmdEnvOk "veh" = (.error "Not logged in", stNoTok, []) ∧
    stop stNoTok cmdEnvOk "veh" = (.error "Not logged in", stNoTok, []) ∧
    lock stNoTok cmdEnvOk "veh" = (.error "Not logged in", stNoTok, []) ∧
    unlock stNoTok cmdEnvOk "veh" = (.error "Not logged in", stNoTok, []) ∧
    trunk stNoTok cmdEnvOk "veh" = (.error "Not logged in", stNoTok, []) ∧
    aux1 stNoTok cmdEnvOk "veh" = (.error "Not logged in", stNoTok, []) ∧
    aux2 stNoTok cmdEnvOk "veh" = (.error "Not logged in", stNoTok, []) ∧
    location stNoTok cmdEnvOk "veh" = (.error "Not logged in", stNoTok, []) ∧
    status stNoTok listEnvOne [] "veh" = (some (.error "Not logged in"), stNoTok, []) :=
  C1_null_token_fails_without_request stNoTok rfl listEnvOne cmdEnvOk [] none "veh" "arm"

/-- C10: the session token is written only by `login`: every other operation
returns the client state it was given, whether it succeeds or fails, and
`login` either leaves the state untouched (failed exchange) or replaces
`accessToken` wholesale, keeping the stored config. -/
theorem C10_only_login_writes_session (st : ClientState) (envL : ListEnv)
    (envC : CmdEnv) (envA : AuthEnv) (order : List Nat)
    (opts : Option VehicleOptions) (vehicleId command : String) :
    (vehicles st envL order opts).2.1 = st ∧
    (sendCommand st envC vehicleId command).2.1 = st ∧
    (start st envC vehicleId).2.1 = st ∧
    (stop st envC vehicleId).2.1 = st ∧
    (lock st envC vehicleId).2.1 = st ∧
    (unlock st envC vehicleId).2.1 = st ∧
    (trunk st envC vehicleId).2.1 = st ∧
    (aux1 st envC vehicleId).2.1 = st ∧
    (aux2 st envC vehicleId).2.1 = st ∧
    (location st envC vehicleId).2.1 = st ∧
    (status st envL order vehicleId).2.1 = st ∧
    (login st envA).2 =
      (match getSessionToken envA st.config.username st.config.password with
       | .error _ => st
       | .ok accessToken => ⟨st.config, ⟨some accessToken⟩⟩) := by
  refine ⟨vehicles_state_eq st envL order opts,
    sendCommand_state_eq st envC vehicleId command,
    sendCommand_state_eq st envC vehicleId "remote_start",
    sendCommand_state_eq st envC vehicleId "remote_stop",
    sendCommand_state_eq st envC vehicleId "arm",
    sendCommand_state_eq st envC vehicleId "disarm",
    sendCommand_state_eq st envC vehicleId "trunk",
    sendCommand_state_eq st envC vehicleId "remote_aux1",
    sendCommand_state_eq st envC vehicleId "remote_aux2",
    sendCommand_state_eq st envC vehicleId "location",
    status_state_eq st envL order vehicleId, ?_⟩
  unfold login
  split <;> simp_all

/-- C4: for a logged-in client, a non-2xx response from the command endpoint
makes `sendCommand` fail with exactly the constant message `Command failed`
(the response body does not appear in the surfaced error), and every public
wrapper is plain delegation to `sendCommand`, so it fails the same way. -/
theorem C4_non2xx_command_failed (st : ClientState) (t : String)
    (h : st.sessionInfo.accessToken = some t) (env : CmdEnv)
    (vehicleId command : String)
    (hbad : (env vehicleId command).statusCode < 200 ∨
      300 ≤ (env vehicleId command).statusCode) :
    sendCommand st env vehicleId command =
      (.error "Command failed", st, [(vehicleId, command)]) ∧
    start st env vehicleId = sendCommand st env vehicleId "remote_start" ∧
    stop st env vehicleId = sendCommand st env vehicleId "remote_stop" ∧
    lock st env vehicleId = sendCommand st env vehicleId "arm" ∧
    unlock st env vehicleId = sendCommand st env vehicleId "disarm" ∧
    trunk st env vehicleId = sendCommand st env vehicleId "trunk" ∧
    aux1 st env vehicleId = sendCommand st env vehicleId "remote_aux1" ∧
    aux2 st env vehicleId = sendCommand st env vehicleId "remote_aux2" ∧
    location st env vehicleId = sendCommand st env vehicleId "location" := by
  refine ⟨?_, rfl, rfl, rfl, rfl, rfl, rfl, rfl, rfl⟩
  have hne : (env vehicleId command).statusCode ≠ 200 := by omega
  simp [sendCommand, h, hne]

/-- C4 witness: a 500 response yields exactly `Command failed`. -/
theorem C4_witness :
    sendCommand stTok cmdEnvErr "veh" "arm" =
      (.error "Command failed", stTok, [("veh", "arm")]) ∧
    start stTok cmdEnvErr "veh" = sendCommand stTok cmdEnvErr "veh" "remote_start" ∧
    stop stTok cmdEnvErr "veh" = sendCommand stTok cmdEnvErr "veh" "remote_stop" ∧
    lock stTok cmdEnvErr "veh" = sendCommand stTok cmdEnvErr "veh" "arm" ∧
    unlock stTok cmdEnvErr "veh" = sendCommand stTok cmdEnvErr "veh" "disarm" ∧
    trunk stTok cmdEnvErr "veh" = sendCommand stTok cmdEnvErr "veh" "trunk" ∧
    aux1 stTok cmdEnvErr "veh" = sendCommand stTok cmdEnvErr "veh" "remote_aux1" ∧
    aux2 stTok cmdEnvErr "veh" = sendCommand stTok cmdEnvErr "veh" "remote_aux2" ∧
    location stTok cmdEnvErr "veh" = sendCommand stTok cmdEnvErr "veh" "location" :=
  C4_non2xx_command_failed stTok "token" rfl cmdEnvErr "veh" "arm" (by right; decide)

/-- C5: each public control wrapper delegates to `sendCommand` with exactly
its fixed keyword, and on an HTTP 200 response returns exactly the string
`<keyword> command was successful!`. -/
theorem C5_wrapper_keywords (st : ClientState) (t : String)
    (h : st.sessionInfo.accessToken = some t) (env : CmdEnv)
    (vehicleId : String)
    (h200 : ∀ c, (env vehicleId c).statusCode = 200) :
    (start st env vehicleId = sendCommand st env vehicleId "remote_start" ∧
      (start st env vehicleId).1 = .ok "remote_start command was successful!") ∧
    (stop st env vehicleId = sendCommand st env vehicleId "remote_stop" ∧
      (stop st env vehicleId).1 = .ok "remote_stop command was successful!") ∧
    (lock st env vehicleId = sendCommand st env vehicleId "arm" ∧
      (lock st env vehicleId).1 = .ok "arm command was successful!") ∧
    (unlock st env vehicleId = sendCommand st env vehicleId "disarm" ∧
      (unlock st env vehicleId).1 = .ok "disarm command was successful!") ∧
    (trunk st env vehicleId = sendCommand st env vehicleId "trunk" ∧
      (trunk st env vehicleId).1 = .ok "trunk command was successful!") ∧
    (aux1 st env vehicleId = sendCommand st env vehicleId "remote_aux1" ∧
      (aux1 st env vehicleId).1 = .ok "remote_aux1 command was successful!") ∧
    (aux2 st env vehicleId = sendCommand st env vehicleId "remote_aux2" ∧
      (aux2 st env vehicleId).1 = .ok "remote_aux2 command was successful!") := by
  refine ⟨⟨rfl, ?_⟩, ⟨rfl, ?_⟩, ⟨rfl, ?_⟩, ⟨rfl, ?_⟩, ⟨rfl, ?_⟩, ⟨rfl, ?_⟩, ⟨rfl, ?_⟩⟩ <;>
    simp [start, stop, lock, unlock, trunk, aux1, aux2, sendCommand, h, h200]

/-- C5 witness: the wrappers against a concrete 200 endpoint. -/
theorem C5_witness :
    (start stTok cmdEnvOk "veh" = sendCommand stTok cmdEnvOk "veh" "remote_start" ∧
      (start stTok cmdEnvOk "veh").1 = .ok "remote_start command was successful!") ∧
    (stop stTok cmdEnvOk "veh" = sendCommand stTok cmdEnvOk "veh" "remote_stop" ∧
      (stop stTok cmdEnvOk "veh").1 = .ok "remote_stop command was successful!") ∧
    (lock stTok cmdEnvOk "veh" = sendCommand stTok cmdEnvOk "veh" "arm" ∧
      (lock stTok cmdEnvOk "veh").1 = .ok "arm command was successful!") ∧
    (unlock stTok cmdEnvOk "veh" = sendCommand stTok cmdEnvOk "veh" "disarm" ∧
      (unlock stTok cmdEnvOk "veh").1 = .ok "disarm command was successful!") ∧
    (trunk stTok cmdEnvOk "veh" = sendCommand stTok cmdEnvOk "veh" "trunk" ∧
      (trunk stTok cmdEnvOk "veh").1 = .ok "trunk command was successful!") ∧
    (aux1 stTok cmdEnvOk "veh" = sendCommand stTok cmdEnvOk "veh" "remote_aux1" ∧
      (aux1 stTok cmdEnvOk "veh").1 = .ok "remote_aux1 command was successful!") ∧
    (aux2 stTok cmdEnvOk "veh" = sendCommand stTok cmdEnvOk "veh" "remote_aux2" ∧
      (aux2 stTok cmdEnvOk "veh").1 = .ok "remote_aux2 command was successful!") :=
  C5_wrapper_keywords stTok "token" rfl cmdEnvOk "veh" (fun _ => rfl)

/-- C6 counterexample: the claim says `location` returns, as opaque data,
whatever the vendor's command endpoint returns for keyword `location`.
Against a logged-in client and an endpoint answering 200 with body
`vendor-body`, `location` does not return that body: it returns the fixed
client-side string built by `sendCommand`. -/
theorem C6_counterexample :
    (location stTok cmdEnvOk "veh").1 ≠
      .ok ((cmdEnvOk "veh" "location").result) := by
  simp [location, sendCommand, stTok, cmdEnvOk]

/-- C6 (amended): `location(vehicleId)` delegates to the command dispatcher
with keyword `location`, but on HTTP 200 it returns the fixed client-side
string `location command was successful!`, not the endpoint's response
data. -/
theorem C6_location_delegates_fixed_string (st : ClientState) (t : String)
    (h : st.sessionInfo.accessToken = some t) (env : CmdEnv)
    (vehicleId : String)
    (h200 : (env vehicleId "location").statusCode = 200) :
    location st env vehicleId = sendCommand st env vehicleId "location" ∧
    (location st env vehicleId).1 = .ok "location command was successful!" := by
  refine ⟨rfl, ?_⟩
  simp [location, sendCommand, h, h200]

/-- C6 witness: the amended theorem at a concrete 200 endpoint. -/
theorem C6_witness :
    location stTok cmdEnvOk "veh" = sendCommand stTok cmdEnvOk "veh" "location" ∧
    (location stTok cmdEnvOk "veh").1 = .ok "location command was successful!" :=
  C6_location_delegates_fixed_string stTok "token" rfl cmdEnvOk "veh" rfl

/-- C2: for a logged-in client, when the reported count exceeds the limit,
`vehicles({all: true})` issues exactly `ceil(count / limit)` page requests
(the initial one plus `ceil(count / limit) - 1` concurrent ones at offsets
`limit, 2*limit, …`), and if the pages together hold exactly `count`
records, the returned flat list has length `count`. -/
theorem C2_all_pages_count (st : ClientState) (t : String)
    (h : st.sessionInfo.accessToken = some t)
    (env : ListEnv) (order : List Nat)
    (h200 : ∀ l o, (env l o).statusCode = 200)
    (hcount : 100 < (env 100 0).body.count)
    (horder : IsCompletionOrder (numOfRequests (env 100 0).body.count 100) order)
    (htotal : (env 100 0).body.results.length +
      ((List.range (numOfRequests (env 100 0).body.count 100)).map
        (fun i => (env 100 ((i + 1) * 100)).body.results.length)).sum
      = (env 100 0).body.count) :
    (vehicles st env order allTrueOpts).2.2 =
      (100, 0) :: (List.range (numOfRequests (env 100 0).body.count 100)).map
        (fun i => (100, (i + 1) * 100)) ∧
    (vehicles st env order allTrueOpts).2.2.length =
      ceilDiv (env 100 0).body.count 100 ∧
    ∃ vs, (vehicles st env order allTrueOpts).1 = some (.ok vs) ∧
      vs.length = (env 100 0).body.count := by
  rw [vehicles_allTrue_ok st t h env order h200 hcount horder]
  refine ⟨rfl, ?_, ?_⟩
  · simp only [List.length_cons, List.length_map, List.length_range]
    unfold numOfRequests ceilDiv
    omega
  · refine ⟨_, rfl, ?_⟩
    rw [List.length_append, List.length_flatten, List.map_map]
    simp only [Function.comp_def]
    exact htotal

/-- C2 witness: 250 reported vehicles at limit 100 make three page requests
and return 250 records. -/
theorem C2_witness :
    (vehicles stTok envC2 [0, 1] allTrueOpts).2.2 =
      (100, 0) :: (List.range (numOfRequests (envC2 100 0).body.count 100)).map
        (fun i => (100, (i + 1) * 100)) ∧
    (vehicles stTok envC2 [0, 1] allTrueOpts).2.2.length =
      ceilDiv (envC2 100 0).body.count 100 ∧
    ∃ vs, (vehicles stTok envC2 [0, 1] allTrueOpts).1 = some (.ok vs) ∧
      vs.length = (envC2 100 0).body.count :=
  C2_all_pages_count stTok "token" rfl envC2 [0, 1] (fun _ _ => rfl)
    (by decide) (by decide) (by decide)

/-- C3 counterexample: the claim says that for some completion order of the
parallel batch differing from offset order, the merged list follows
completion order rather than offset order.  Against the concrete endpoint
`envC3` (two additional pages with distinguishable records) no such
completion order exists: `Promise.all` hands the pages back in request
(offset) order whatever the completion order was. -/
theorem C3_counterexample :
    ¬ ∃ order : List Nat, IsCompletionOrder 2 order ∧ order ≠ [0, 1] ∧
      (vehicles stTok envC3 order allTrueOpts).1 =
        some (.ok (completionMerge envC3 100 0 order)) ∧
      completionMerge envC3 100 0 order ≠ completionMerge envC3 100 0 [0, 1] := by
  rintro ⟨order, horder, hne, heq, hdiff⟩
  have hred := vehicles_allTrue_ok stTok "token" rfl envC3 order
    (fun _ _ => rfl) (by decide) horder
  rw [hred] at heq
  simp only [Option.some.injEq, Except.ok.injEq] at heq
  exact hdiff (heq.symm.trans (by decide))

/-- C3 (amended): the records of the additional parallel pages are appended
in offset (request) order regardless of the completion order of the
concurrent batch: for every valid completion order the merged list is the
initial page followed by the additional pages at offsets
`limit, 2*limit, …` in that order. -/
theorem C3_offset_order_preserved (st : ClientState) (t : String)
    (h : st.sessionInfo.accessToken = some t)
    (env : ListEnv) (order : List Nat)
    (h200 : ∀ l o, (env l o).statusCode = 200)
    (hcount : 100 < (env 100 0).body.count)
    (horder : IsCompletionOrder (numOfRequests (env 100 0).body.count 100) order) :
    (vehicles st env order allTrueOpts).1 =
      some (.ok (completionMerge env 100 0
        (List.range (numOfRequests (env 100 0).body.count 100)))) := by
  rw [vehicles_allTrue_ok st t h env order h200 hcount horder]
  rfl

/-- C3 witness: with completion order `[1, 0]` (the page at offset 200
finishes first) the merged list is still in offset order. -/
theorem C3_witness :
    (vehicles stTok envC3 [1, 0] allTrueOpts).1 =
      some (.ok (completionMerge envC3 100 0
        (List.range (numOfRequests (envC3 100 0).body.count 100)))) :=
  C3_offset_order_preserved stTok "token" rfl envC3 [1, 0]
    (fun _ _ => rfl) (by decide) (by decide)

/-- Reduction of `vehicles` when the initial page request answers a non-200
status: the call fails with an error naming that status after a single
request. -/
theorem vehicles_init_error (st : ClientState) (t : String)
    (h : st.sessionInfo.accessToken = some t)
    (env : ListEnv) (order : List Nat) (opts : Option VehicleOptions)
    (hinit : (env (resolveLimit opts) (resolveOffset opts)).statusCode ≠ 200) :
    vehicles st env order opts =
      (some (.error ("Failed to get vehicles: " ++
        toString (env (resolveLimit opts) (resolveOffset opts)).statusCode)),
       st, [(resolveLimit opts, resolveOffset opts)]) := by
  unfold vehicles
  rw [h]
  dsimp only
  rw [(sendReq_error_iff env (resolveLimit opts) (resolveOffset opts) _).mpr
    ⟨hinit, rfl⟩]

/-- Reduction of `vehicles` when the initial page answers 200 and no fan-out
happens (either `all` is false or the count fits in one page): one request,
the initial page's records. -/
theorem vehicles_no_fanout (st : ClientState) (t : String)
    (h : st.sessionInfo.accessToken = some t)
    (env : ListEnv) (order : List Nat) (opts : Option VehicleOptions)
    (hinit : (env (resolveLimit opts) (resolveOffset opts)).statusCode = 200)
    (hng : ¬ (resolveAll opts = true ∧
      resolveLimit opts < (env (resolveLimit opts) (resolveOffset opts)).body.count)) :
    vehicles st env order opts =
      (some (.ok (env (resolveLimit opts) (resolveOffset opts)).body.results),
       st, [(resolveLimit opts, resolveOffset opts)]) := by
  unfold vehicles
  rw [h]
  dsimp only
  rw [sendReq_ok env (resolveLimit opts) (resolveOffset opts) hinit]
  dsimp only
  rw [if_neg hng]

/-- Reduction of `vehicles` in the fan-out case when every additional page
answers 200: for every valid completion order the result is the pages merged
in offset order, after `1 + numOfRequests` requests. -/
theorem vehicles_fanout_ok (st : ClientState) (t : String)
    (h : st.sessionInfo.accessToken = some t)
    (env : ListEnv) (order : List Nat) (opts : Option VehicleOptions)
    (hinit : (env (resolveLimit opts) (resolveOffset opts)).statusCode = 200)
    (hg : resolveAll opts = true ∧
      resolveLimit opts < (env (resolveLimit opts) (resolveOffset opts)).body.count)
    (h200p : ∀ i < numOfRequests
        (env (resolveLimit opts) (resolveOffset opts)).body.count (resolveLimit opts),
      (env (resolveLimit opts) ((i + 1) * resolveLimit opts)).statusCode = 200)
    (horder : IsCompletionOrder
      (numOfRequests (env (resolveLimit opts) (resolveOffset opts)).body.count
        (resolveLimit opts)) order) :
    vehicles st env order opts =
      (some (.ok ((env (resolveLimit opts) (resolveOffset opts)).body.results ++
        ((List.range (numOfRequests
            (env (resolveLimit opts) (resolveOffset opts)).body.count
            (resolveLimit opts))).map
          (fun i => (env (resolveLimit opts) ((i + 1) * resolveLimit opts)).body.results)).flatten)),
       st,
       (resolveLimit opts, resolveOffset opts) ::
         (List.range (numOfRequests
             (env (resolveLimit opts) (resolveOffset opts)).body.count
             (resolveLimit opts))).map
           (fun i => (resolveLimit opts, (i + 1) * resolveLimit opts))) := by
  unfold vehicles
  rw [h]
  dsimp only
  rw [sendReq_ok env (resolveLimit opts) (resolveOffset opts) hinit]
  dsimp only
  rw [if_pos hg]
  have htasks : ∀ i < numOfRequests
      (env (resolveLimit opts) (resolveOffset opts)).body.count (resolveLimit opts),
      pageTask env (resolveLimit opts) i =
        .ok ((env (resolveLimit opts) ((i + 1) * resolveLimit opts)).body) := by
    intro i hi
    exact sendReq_ok env (resolveLimit opts) ((i + 1) * resolveLimit opts) (h200p i hi)
  rw [promiseAll_ok _ (pageTask env (resolveLimit opts))
    (fun i => (env (resolveLimit opts) ((i + 1) * resolveLimit opts)).body)
    order horder htasks]
  dsimp only
  rw [List.map_map]
  rfl

/-- Reduction of `vehicles` in the fan-out case when some additional page
answers a non-200 status: for every valid completion order the whole call
fails with an error naming the status of one of the failing pages. -/
theorem vehicles_fanout_error (st : ClientState) (t : String)
    (h : st.sessionInfo.accessToken = some t)
    (env : ListEnv) (order : List Nat) (opts : Option VehicleOptions)
    (hinit : (env (resolveLimit opts) (resolveOffset opts)).statusCode = 200)
    (hg : resolveAll opts = true ∧
      resolveLimit opts < (env (resolveLimit opts) (resolveOffset opts)).body.count)
    (horder : IsCompletionOrder
      (numOfRequests (env (resolveLimit opts) (resolveOffset opts)).body.count
        (resolveLimit opts)) order)
    (hfail : ∃ i < numOfRequests
        (env (resolveLimit opts) (resolveOffset opts)).body.count (resolveLimit opts),
      (env (resolveLimit opts) ((i + 1) * resolveLimit opts)).statusCode ≠ 200) :
    ∃ i < numOfRequests
        (env (resolveLimit opts) (resolveOffset opts)).body.count (resolveLimit opts),
      (env (resolveLimit opts) ((i + 1) * resolveLimit opts)).statusCode ≠ 200 ∧
      vehicles st env order opts =
        (some (.error ("Failed to get vehicles: " ++
          toString (env (resolveLimit opts) ((i + 1) * resolveLimit opts)).statusCode)),
         st,
         (resolveLimit opts, resolveOffset opts) ::
           (List.range (numOfRequests
               (env (resolveLimit opts) (resolveOffset opts)).body.count
               (resolveLimit opts))).map
             (fun i => (resolveLimit opts, (i + 1) * resolveLimit opts))) := by
  obtain ⟨i, hi, hine⟩ := hfail
  have htaski : pageTask env (resolveLimit opts) i =
      .error ("Failed to get vehicles: " ++
        toString (env (resolveLimit opts) ((i + 1) * resolveLimit opts)).statusCode) :=
    (sendReq_error_iff env (resolveLimit opts) ((i + 1) * resolveLimit opts) _).mpr
      ⟨hine, rfl⟩
  obtain ⟨e, hPA, i2, hi2, he2⟩ :=
    promiseAll_error _ (pageTask env (resolveLimit opts)) order horder
      ⟨i, hi, _, htaski⟩
  obtain ⟨hne2, herr⟩ :=
    (sendReq_error_iff env (resolveLimit opts) ((i2 + 1) * resolveLimit opts) e).mp he2
  refine ⟨i2, hi2, hne2, ?_⟩
  unfold vehicles
  rw [h]
  dsimp only
  rw [sendReq_ok env (resolveLimit opts) (resolveOffset opts) hinit]
  dsimp only
  rw [if_pos hg, hPA, herr]

/-- C7: for a logged-in client, if any page request issued by `vehicles`
(initial or parallel) receives a non-200 status, the entire call fails with
an error naming that status code, and no partial record list is returned. -/
theorem C7_page_failure_fails_call (st : ClientState) (t : String)
    (h : st.sessionInfo.accessToken = some t)
    (env : ListEnv) (order : List Nat) (opts : Option VehicleOptions)
    (horder : IsCompletionOrder
      (numOfRequests (env (resolveLimit opts) (resolveOffset opts)).body.count
        (resolveLimit opts)) order)
    (hbad : ∃ p ∈ (vehicles st env order opts).2.2,
      (env p.1 p.2).statusCode ≠ 200) :
    ∃ s, s ≠ 200 ∧
      (∃ p ∈ (vehicles st env order opts).2.2, (env p.1 p.2).statusCode = s) ∧
      (vehicles st env order opts).1 =
        some (.error ("Failed to get vehicles: " ++ toString s)) ∧
      ∀ vs, (vehicles st env order opts).1 ≠ some (.ok vs) := by
  by_cases hinit : (env (resolveLimit opts) (resolveOffset opts)).statusCode = 200
  · by_cases hg : resolveAll opts = true ∧
        resolveLimit opts < (env (resolveLimit opts) (resolveOffset opts)).body.count
    · by_cases hfail : ∃ i < numOfRequests
          (env (resolveLimit opts) (resolveOffset opts)).body.count (resolveLimit opts),
        (env (resolveLimit opts) ((i + 1) * resolveLimit opts)).statusCode ≠ 200
      · obtain ⟨i, hi, hine, heq⟩ :=
          vehicles_fanout_error st t h env order opts hinit hg horder hfail
        rw [heq]
        refine ⟨(env (resolveLimit opts) ((i + 1) * resolveLimit opts)).statusCode,
          hine, ⟨(resolveLimit opts, (i + 1) * resolveLimit opts), ?_, rfl⟩, rfl, ?_⟩
        · exact List.mem_cons_of_mem _
            (List.mem_map.mpr ⟨i, List.mem_range.mpr hi, rfl⟩)
        · intro vs hvs
          simp at hvs
      · push_neg at hfail
        have heq := vehicles_fanout_ok st t h env order opts hinit hg hfail horder
        rw [heq] at hbad
        exfalso
        obtain ⟨p, hp, hpbad⟩ := hbad
        rcases List.mem_cons.mp hp with rfl | hp2
        · exact hpbad hinit
        · obtain ⟨i, hi, rfl⟩ := List.mem_map.mp hp2
          exact hpbad (hfail i (List.mem_range.mp hi))
    · have heq := vehicles_no_fanout st t h env order opts hinit hg
      rw [heq] at hbad
      exfalso
      obtain ⟨p, hp, hpbad⟩ := hbad
      rcases List.mem_cons.mp hp with rfl | hp2
      · exact hpbad hinit
      · simp at hp2
  · have heq := vehicles_init_error st t h env order opts hinit
    rw [heq]
    refine ⟨(env (resolveLimit opts) (resolveOffset opts)).statusCode, hinit,
      ⟨(resolveLimit opts, resolveOffset opts), by simp, rfl⟩, rfl, ?_⟩
    intro vs hvs
    simp at hvs

/-- C7 witness: a parallel page answering 500 makes the whole call fail with
an error naming status 500. -/
theorem C7_witness :
    ∃ s, s ≠ 200 ∧
      (∃ p ∈ (vehicles stTok envC7 [0, 1] none).2.2, (envC7 p.1 p.2).statusCode = s) ∧
      (vehicles stTok envC7 [0, 1] none).1 =
        some (.error ("Failed to get vehicles: " ++ toString s)) ∧
      ∀ vs, (vehicles stTok envC7 [0, 1] none).1 ≠ some (.ok vs) :=
  C7_page_failure_fails_call stTok "token" rfl envC7 [0, 1] none
    (by decide) (by decide)

/-- C8: for a logged-in client, `vehicles({all: false, limit: L, offset: O})`
issues exactly one list request (for `L` items at offset `O`) regardless of
the reported count, and if the page answers 200 with at most `L` records,
the call returns those records — at most `L` of them. -/
theorem C8_single_request (st : ClientState) (t : String)
    (h : st.sessionInfo.accessToken = some t)
    (env : ListEnv) (order : List Nat) (L O : Nat) :
    (vehicles st env order (some ⟨some false, some L, some O⟩)).2.2 = [(L, O)] ∧
    ((env L O).statusCode = 200 → (env L O).body.results.length ≤ L →
      (vehicles st env order (some ⟨some false, some L, some O⟩)).1 =
        some (.ok (env L O).body.results) ∧
      (env L O).body.results.length ≤ L) := by
  have hra : resolveAll (some ⟨some false, some L, some O⟩) = false := rfl
  have hrl : resolveLimit (some ⟨some false, some L, some O⟩) = L := rfl
  have hro : resolveOffset (some ⟨some false, some L, some O⟩) = O := rfl
  by_cases hinit : (env L O).statusCode = 200
  · have heq := vehicles_no_fanout st t h env order (some ⟨some false, some L, some O⟩)
      (by rw [hrl, hro]; exact hinit) (by rw [hra]; simp)
    rw [hrl, hro] at heq
    rw [heq]
    exact ⟨rfl, fun _ hlen => ⟨rfl, hlen⟩⟩
  · have heq := vehicles_init_error st t h env order (some ⟨some false, some L, some O⟩)
      (by rw [hrl, hro]; exact hinit)
    rw [hrl, hro] at heq
    rw [heq]
    exact ⟨rfl, fun h200 _ => absurd h200 hinit⟩

/-- C8 witness: one request at limit 7, offset 3, returning one record. -/
theorem C8_witness :
    (vehicles stTok listEnvOne [] (some ⟨some false, some 7, some 3⟩)).2.2 = [(7, 3)] ∧
    ((listEnvOne 7 3).statusCode = 200 → (listEnvOne 7 3).body.results.length ≤ 7 →
      (vehicles stTok listEnvOne [] (some ⟨some false, some 7, some 3⟩)).1 =
        some (.ok (listEnvOne 7 3).body.results) ∧
      (listEnvOne 7 3).body.results.length ≤ 7) :=
  C8_single_request stTok "token" rfl listEnvOne [] 7 3

/-- C9: `status(id)` fetches the full vehicle list with `all: true` and
returns the first record whose `device_key` equals `id`; when no record
matches it returns absence (`none`) rather than failing. -/
theorem C9_status_finds_first (st : ClientState) (env : ListEnv)
    (order : List Nat) (vehicleId : String) (vs : List ResultsEntity)
    (tr : List (Nat × Nat))
    (h : vehicles st env order allTrueOpts = (some (.ok vs), st, tr)) :
    status st env order vehicleId =
      (some (.ok (vs.find? (fun item => item.device_key == vehicleId))), st, tr) ∧
    (∀ r, vs.find? (fun item => item.device_key == vehicleId) = some r →
      r.device_key = vehicleId ∧ r ∈ vs) ∧
    ((∃ v ∈ vs, v.device_key = vehicleId) →
      ∃ r, vs.find? (fun item => item.device_key == vehicleId) = some r) ∧
    (vs.find? (fun item => item.device_key == vehicleId) = none ↔
      ∀ v ∈ vs, v.device_key ≠ vehicleId) := by
  refine ⟨?_, ?_, ?_, ?_⟩
  · unfold status
    rw [h]
  · intro r hr
    exact ⟨by simpa using List.find?_some hr, List.mem_of_find?_eq_some hr⟩
  · rintro ⟨v, hv, hkey⟩
    cases hfind : vs.find? (fun item => item.device_key == vehicleId) with
    | none =>
      have := List.find?_eq_none.mp hfind v hv
      simp [hkey] at this
    | some r => exact ⟨r, rfl⟩
  · rw [List.find?_eq_none]
    constructor
    · intro hall v hv
      simpa using hall v hv
    · intro hall v hv
      simpa using hall v hv

/-- C9 witness: against an account with one vehicle `dev1`, `status` finds it
for id `dev1` and delivers its record through the find-on-list path. -/
theorem C9_witness :
    status stTok listEnvOne [] "dev1" =
      (some (.ok ([(⟨"dev1", "p1"⟩ : ResultsEntity)].find?
        (fun item => item.device_key == "dev1"))), stTok, [(100, 0)]) ∧
    (∀ r, [(⟨"dev1", "p1"⟩ : ResultsEntity)].find?
        (fun item => item.device_key == "dev1") = some r →
      r.device_key = "dev1" ∧ r ∈ [(⟨"dev1", "p1"⟩ : ResultsEntity)]) ∧
    ((∃ v ∈ [(⟨"dev1", "p1"⟩ : ResultsEntity)], v.device_key = "dev1") →
      ∃ r, [(⟨"dev1", "p1"⟩ : ResultsEntity)].find?
        (fun item => item.device_key == "dev1") = some r) ∧
    ([(⟨"dev1", "p1"⟩ : ResultsEntity)].find?
        (fun item => item.device_key == "dev1") = none ↔
      ∀ v ∈ [(⟨"dev1", "p1"⟩ : ResultsEntity)], v.device_key ≠ "dev1") :=
  C9_status_finds_first stTok listEnvOne [] "dev1"
    [⟨"dev1", "p1"⟩] [(100, 0)] rfl
